import Mathlib

/-!
Verification of the Bot Entity Lifecycle Manager of FlightForge
(`src/admin-panel/app.py`) against its natural-language specification.

The relational game-state store is shallowly embedded as lists of typed rows
(`DB`), monetary and score columns as exact rationals `ℚ` (the source stores
them as SQL decimals and compares them with `<`/`>`), and each Flask handler
as a pure function from the committed database to the committed database plus
the JSON response it returns.  MySQL transaction semantics (`autocommit =
False` … `commit()` / `rollback()`) are embedded by returning the *input*
database unchanged on every path that does not reach `conn.commit()`.
Storage failures are injected through an explicit `fault` parameter (the
handler's `except` clause catches any exception raised by a `cursor.execute`;
the injection point models a failing `UPDATE airline_info`).  The global
random source used by `random.sample` is embedded as an explicit `sample`
parameter, constrained (where a claim needs it) to return a draw without
replacement of the requested size, which is exactly the contract of
`random.sample(pool, k)` for `k ≤ |pool|`.
-/

namespace FlightForge

/-! ## Row types of the relational store (one structure per table touched by
the lifecycle core; column names follow the schema used in `app.py`). -/

/-- A row of `airline`.  `airline_type = 2` marks a bot airline. -/
structure Airline where
  id : ℕ
  name : String
  airline_type : ℕ
  deriving DecidableEq, Repr

/-- A row of `airline_info` (the financial profile; one-to-one with
`airline`).  `country_code` is `none` when the column is NULL. -/
structure AirlineInfo where
  airline : ℕ
  balance : ℚ
  reputation : ℚ
  service_quality : ℚ
  target_service_quality : ℚ
  country_code : Option String
  initialized : Bool
  deriving DecidableEq, Repr

/-- A row of `link` (a route). -/
structure Link where
  id : ℕ
  airline : ℕ
  deriving DecidableEq, Repr

/-- A row of `link_assignment` (references a `link` by id). -/
structure LinkAssignment where
  link : ℕ
  deriving DecidableEq, Repr

/-- A row of `link_consumption` (references a `link` by id). -/
structure LinkConsumption where
  link : ℕ
  deriving DecidableEq, Repr

/-- A row of `airplane`.  `home` is NULL-able (the reset path inserts the
possibly-missing `hq_airport` into it). -/
structure Airplane where
  id : ℕ
  model : ℕ
  owner : ℕ
  constructed_cycle : ℕ
  purchased_cycle : ℕ
  airplane_condition : ℚ
  depreciation_rate : ℚ
  value : ℚ
  is_sold : Bool
  home : Option ℕ
  deriving DecidableEq, Repr

/-- A row of `airplane_configuration` (references an `airplane` by id). -/
structure AirplaneConfiguration where
  airplane : ℕ
  deriving DecidableEq, Repr

/-- A row of `airline_base`. -/
structure AirlineBase where
  airport : ℕ
  airline : ℕ
  scale : ℕ
  founded_cycle : ℕ
  headquarter : Bool
  country : String
  deriving DecidableEq, Repr

/-- A row of `airline_appeal`. -/
structure AirlineAppeal where
  airline : ℕ
  deriving DecidableEq, Repr

/-- A row of the read-only `airport` reference table. -/
structure Airport where
  id : ℕ
  iata : String
  country_code : String
  airport_size : ℕ
  population : ℕ
  deriving DecidableEq, Repr

/-- A row of the read-only `airplane_model` catalog. -/
structure AirplaneModel where
  id : ℕ
  name : String
  price : ℚ
  deriving DecidableEq, Repr

/-- The shared relational store.  `next_airline_id` / `next_airplane_id`
model the AUTO_INCREMENT counters consumed by the `INSERT`s (`lastrowid`). -/
structure DB where
  airlines : List Airline
  infos : List AirlineInfo
  links : List Link
  link_assignments : List LinkAssignment
  link_consumptions : List LinkConsumption
  airplanes : List Airplane
  airplane_configurations : List AirplaneConfiguration
  bases : List AirlineBase
  appeals : List AirlineAppeal
  airports : List Airport
  models : List AirplaneModel
  cycles : List ℕ
  next_airline_id : ℕ
  next_airplane_id : ℕ
  deriving DecidableEq, Repr

/-! ## Personality classifier (`determine_personality`, app.py lines 741-766) -/

/-- A loosely-typed Python value as it reaches `determine_personality` from
the database / JSON layer: a number, a string, or `None`. -/
inductive PyVal where
  | vnum (q : ℚ)
  | vstr (s : String)
  | vnone
  deriving DecidableEq, Repr

/-- Python truthiness of a `PyVal` (`if balance` …): `0`, `""` and `None`
are falsy. -/
def pyTruthy : PyVal → Bool
  | .vnum q => decide (q ≠ 0)
  | .vstr s => decide (s ≠ "")
  | .vnone => false

/-- Python `float(s)` on a string, modelled on decimal digit strings: a
non-empty all-digit string parses to its value, anything else (in
particular every non-numeric string) fails to parse.  Only the
failure-on-non-numeric behaviour is relied upon. -/
def pyParseNum (s : String) : Option ℚ :=
  match s.toList with
  | [] => none
  | cs => (cs.foldl (fun acc c =>
      match acc, (if c.isDigit then some (c.toNat - 48) else none) with
      | some n, some d => some (10 * n + d)
      | _, _ => none) (some (0 : ℕ))).map (fun n => (n : ℚ))

/-- `float(v)` on a `PyVal`; `none` models a raised
`ValueError`/`TypeError`. -/
def pyFloat : PyVal → Option ℚ
  | .vnum q => some q
  | .vstr s => pyParseNum s
  | .vnone => none

/-- One `x = float(x) if x else 0` conversion: a falsy value is replaced by
`0` without calling `float`; a truthy value is converted (and may raise). -/
def coerceOne (v : PyVal) : Option ℚ :=
  if pyTruthy v then pyFloat v else some 0

/-- The numeric core of `determine_personality` after the conversions
(app.py lines 753-766): first matching branch wins. -/
def determine_personality_core (balance reputation service_quality : ℚ) : String :=
  let cash_ratio := balance / 10000000
  if service_quality > 70 then "PREMIUM"
  else if cash_ratio < 2 ∧ reputation < 30 then "BUDGET"
  else if reputation > 70 then "CONSERVATIVE"
  else if cash_ratio > 10 then "AGGRESSIVE"
  else if service_quality < 40 then "REGIONAL"
  else "BALANCED"

/-- `determine_personality` (app.py lines 741-766).  The `try` block converts
the three arguments in order; if any conversion raises, the `except
(ValueError, TypeError)` clause resets *all three* to `0`. -/
def determine_personality (balance reputation service_quality : PyVal) : String :=
  match coerceOne balance, coerceOne reputation, coerceOne service_quality with
  | some b, some r, some q => determine_personality_core b r q
  | _, _, _ => determine_personality_core 0 0 0

/-! ## Name→market-code table and inference
(`AIRLINE_COUNTRY_MAP` / `get_country_for_airline`, app.py lines 940-975) -/

/-- `AIRLINE_COUNTRY_MAP` (app.py lines 941-968), in source order. -/
def AIRLINE_COUNTRY_MAP : List (String × String) :=
  [("Aeroflot", "RU"),
   ("Aeromexico", "MX"),
   ("Aerom√©xico", "MX"),
   ("Air Canada", "CA"),
   ("Air China", "CN"),
   ("Air France", "FR"),
   ("Air India", "IN"),
   ("American Airlines", "US"),
   ("American Supersonic", "US"),
   ("Capital Airways", "US"),
   ("Egyptair", "EG"),
   ("EuroWings", "DE"),
   ("Garuda Indonesia", "ID"),
   ("Japan Airlines", "JP"),
   ("Kiwi Air", "NZ"),
   ("LATAM Brasil", "BR"),
   ("MediFlight", "US"),
   ("Mineral Express", "US"),
   ("Ocean Freight", "US"),
   ("Pacific Island", "US"),
   ("Petroleum Air", "US"),
   ("Qantas", "AU"),
   ("Scandinavian Airlines", "DK"),
   ("TechConnect", "US"),
   ("Turkish Airlines", "TR"),
   ("Vietnam Airlines", "VN")]

/-- Contiguous-sublist test on character lists (Python's `needle in haystack`
on strings). -/
def occursIn (needle : List Char) : List Char → Bool
  | [] => needle.isEmpty
  | c :: rest => needle.isPrefixOf (c :: rest) || occursIn needle rest

/-- Python `a.lower() in b.lower()` (lower-casing character-wise, which is
what `str.lower` does on the ASCII names of the table). -/
def substrCI (needle haystack : String) : Bool :=
  occursIn (needle.toList.map Char.toLower) (haystack.toList.map Char.toLower)

/-- `get_country_for_airline` (app.py lines 970-975): first table entry whose
key occurs case-insensitively in the airline name. -/
def get_country_for_airline (name : String) : Option String :=
  (AIRLINE_COUNTRY_MAP.find? (fun p => substrCI p.1 name)).map Prod.snd

/-! ## Home-airport selection
(`SELECT id FROM airport WHERE country_code = %s ORDER BY airport_size DESC,
population DESC LIMIT 1`, app.py lines 1069-1074 / 1207-1212 / 1286-1291).
`ORDER BY … LIMIT 1` is embedded as the first row, in table order, among
those maximal in the lexicographic (airport_size, population) order. -/

/-- `betterAirport a b`: `a` sorts strictly before `b` under
`ORDER BY airport_size DESC, population DESC`. -/
def betterAirport (a b : Airport) : Bool :=
  decide (b.airport_size < a.airport_size ∨
    (a.airport_size = b.airport_size ∧ b.population < a.population))

/-- Scan keeping the best row so far (earliest on full ties). -/
def pickTopFrom (best : Airport) : List Airport → Airport
  | [] => best
  | a :: rest => pickTopFrom (if betterAirport a best then a else best) rest

/-- First row of the ordered candidate list, `none` when there are no
candidates. -/
def pickTop : List Airport → Option Airport
  | [] => none
  | a :: rest => some (pickTopFrom a rest)

/-- The airport id chosen for the HQ of a given country code. -/
def selectHqAirport (db : DB) (code : String) : Option ℕ :=
  (pickTop (db.airports.filter (fun ap => decide (ap.country_code = code)))).map Airport.id

/-! ## Candidate fleet pool
(`SELECT id, name, price FROM airplane_model WHERE price < 40000000 ORDER BY
price`, app.py lines 1016 / 1163 / 1317). -/

/-- `ORDER BY price` (ascending), embedded as a stable sort. -/
def sortByPrice (l : List AirplaneModel) : List AirplaneModel :=
  List.insertionSort (fun a b => a.price ≤ b.price) l

/-- The cheap-model pool of a database state. -/
def cheapModels (db : DB) : List AirplaneModel :=
  sortByPrice (db.models.filter (fun m => decide (m.price < 40000000)))

/-- `SELECT MAX(cycle) as current_cycle FROM cycle` followed by
`cycle_result['current_cycle'] if … else 0` (NULL and 0 both give 0). -/
def currentCycle (db : DB) : ℕ :=
  db.cycles.foldl max 0

/-! ## Lifecycle orchestration -/

/-- The SQL statements a reset run executes, in execution order (the
journal emitted by the embedded orchestrator, used to state the
delete-order contract). -/
inductive Op where
  | delLinkAssignments
  | delLinkConsumptions
  | delLinks
  | delAirplaneConfigurations
  | delAirplanes
  | delBases
  | delAppeal
  | updateFinancialProfile
  | insertBase
  | insertAirplane
  deriving DecidableEq, Repr

/-- The per-entity `DELETE` ladder shared by `reset_bots` (app.py lines
1028-1050) and `reset_single_bot` (lines 1166-1188), with the `rowcount`s
the source accumulates.  Returns (state, routes_deleted, aircraft_deleted,
bases_deleted). -/
def teardown (db : DB) (bot_id : ℕ) : DB × ℕ × ℕ × ℕ :=
  -- DELETE FROM link_assignment WHERE link IN (SELECT id FROM link WHERE airline = %s)
  let botLinkIds := (db.links.filter (fun l => decide (l.airline = bot_id))).map Link.id
  let db1 := { db with link_assignments :=
    db.link_assignments.filter (fun la => decide (la.link ∉ botLinkIds)) }
  -- DELETE FROM link_consumption WHERE link IN (SELECT id FROM link WHERE airline = %s)
  let db2 := { db1 with link_consumptions :=
    db1.link_consumptions.filter (fun lc => decide (lc.link ∉ botLinkIds)) }
  -- DELETE FROM link WHERE airline = %s  (routes_deleted = cursor.rowcount)
  let routes_deleted := (db2.links.filter (fun l => decide (l.airline = bot_id))).length
  let db3 := { db2 with links := db2.links.filter (fun l => decide (l.airline ≠ bot_id)) }
  -- DELETE FROM airplane_configuration WHERE airplane IN (SELECT id FROM airplane WHERE owner = %s)
  let botPlaneIds := (db3.airplanes.filter (fun p => decide (p.owner = bot_id))).map Airplane.id
  let db4 := { db3 with airplane_configurations :=
    db3.airplane_configurations.filter (fun c => decide (c.airplane ∉ botPlaneIds)) }
  -- DELETE FROM airplane WHERE owner = %s  (aircraft_deleted = cursor.rowcount)
  let aircraft_deleted := (db4.airplanes.filter (fun p => decide (p.owner = bot_id))).length
  let db5 := { db4 with airplanes := db4.airplanes.filter (fun p => decide (p.owner ≠ bot_id)) }
  -- DELETE FROM airline_base WHERE airline = %s  (bases_deleted = cursor.rowcount)
  let bases_deleted := (db5.bases.filter (fun b => decide (b.airline = bot_id))).length
  let db6 := { db5 with bases := db5.bases.filter (fun b => decide (b.airline ≠ bot_id)) }
  -- DELETE FROM airline_appeal WHERE airline = %s
  let db7 := { db6 with appeals := db6.appeals.filter (fun a => decide (a.airline ≠ bot_id)) }
  (db7, routes_deleted, aircraft_deleted, bases_deleted)

/-- The `UPDATE airline_info SET balance = '200000', reputation = 0,
service_quality = 50.00 [, country_code = %s] WHERE airline = %s` pair of
statements (app.py lines 1052-1064 / 1190-1202): the variant with
`country_code` runs exactly when a code is available. -/
def applyProfileReset (db : DB) (bot_id : ℕ) (code : Option String) : DB :=
  { db with infos := db.infos.map (fun i =>
      if i.airline = bot_id then
        { i with balance := 200000, reputation := 0, service_quality := 50,
                 country_code := match code with
                   | some c => some c
                   | none => i.country_code }
      else i) }

/-- Market-code resolution of the reset paths (app.py lines 1024-1026 /
1150-1155): use the stored code when truthy (non-NULL, non-empty), else
infer from the name. -/
def resetCountryCode (stored : Option String) (name : String) : Option String :=
  match stored with
  | some c => if c = "" then get_country_for_airline name else some c
  | none => get_country_for_airline name

/-- One `INSERT INTO airplane …` row (app.py lines 1091-1096 / 1229-1234 /
1324-1329): condition 100, depreciation 0, value = model price, not sold,
constructed and purchased at the current cycle, home = the (possibly
missing) HQ airport. -/
def mkAirplane (planeId modelId owner cyc : ℕ) (price : ℚ) (home : Option ℕ) : Airplane :=
  { id := planeId, model := modelId, owner := owner, constructed_cycle := cyc,
    purchased_cycle := cyc, airplane_condition := 100, depreciation_rate := 0,
    value := price, is_sold := false, home := home }

/-- The `for model in selected_models: INSERT INTO airplane …` loop,
with the `aircraft_added` counter. -/
def insertPlanes (owner cyc : ℕ) (home : Option ℕ) :
    List AirplaneModel → DB → DB × ℕ
  | [], db => (db, 0)
  | m :: ms, db =>
    let db' := { db with
      airplanes := db.airplanes ++ [mkAirplane db.next_airplane_id m.id owner cyc m.price home],
      next_airplane_id := db.next_airplane_id + 1 }
    let r := insertPlanes owner cyc home ms db'
    (r.1, r.2 + 1)

/-- A bot row as produced by the `SELECT … FROM airline a LEFT JOIN
airline_info ai …` queries: id, name, and the stored country code. -/
structure BotRow where
  id : ℕ
  name : String
  country_code : Option String
  deriving DecidableEq, Repr

/-- The per-entity counters of a reset. -/
structure ResetCounts where
  routes_deleted : ℕ
  aircraft_deleted : ℕ
  bases_deleted : ℕ
  aircraft_added : ℕ
  hq_created : Bool
  deriving DecidableEq, Repr

/-- The `SELECT id FROM airport WHERE country_code = … LIMIT 1` step of the
reset paths, which only runs when a country code is available (app.py lines
1066-1077 / 1204-1215); `hq_airport` stays NULL otherwise. -/
def resetHqAirport (db : DB) (code : Option String) : Option ℕ :=
  match code with
  | some c => selectHqAirport db c
  | none => none

/-- The `if hq_airport and country_code: INSERT INTO airline_base …` step
(app.py lines 1080-1084 / 1218-1222) as the list of rows it inserts —
one HQ base at scale 1, or nothing.  Python integer truthiness means an
airport id of `0` would also skip the insert. -/
def hqBaseInsert (bot_id current_cycle : ℕ) (hq : Option ℕ) (code : Option String) :
    List AirlineBase :=
  match hq, code with
  | some ap, some c =>
    if ap ≠ 0 then [⟨ap, bot_id, 1, current_cycle, true, c⟩] else []
  | _, _ => []

/-- The teardown + rebuild of one bot on the no-failure path, shared
verbatim between the loop body of `reset_bots` (app.py lines 1019-1097) and
the body of `reset_single_bot` (lines 1150-1235).  `sample` stands for
`random.sample`.  Besides the new state and counters it returns the journal
of executed statements, in execution order. -/
def processBotOk (sample : List AirplaneModel → ℕ → List AirplaneModel)
    (cheap_models : List AirplaneModel) (current_cycle : ℕ) (db : DB) (bot : BotRow) :
    DB × ResetCounts × List Op :=
  -- if no country code, try to infer from name
  let country_code := resetCountryCode bot.country_code bot.name
  let t := teardown db bot.id
  let db2 := applyProfileReset t.1 bot.id country_code
  -- find the largest airport in the bot's country for HQ
  let hq_airport := resetHqAirport db2 country_code
  -- create new HQ base at scale 1 (when airport and code are truthy)
  let baseRows := hqBaseInsert bot.id current_cycle hq_airport country_code
  let db3 := { db2 with bases := db2.bases ++ baseRows }
  let hq_created := decide (baseRows ≠ [])
  -- `if cheap_models:` then `random.sample(cheap_models, min(5, len(cheap_models)))`
  let selected := if cheap_models.isEmpty then []
                  else sample cheap_models (min 5 cheap_models.length)
  let planted := insertPlanes bot.id current_cycle hq_airport selected db3
  (planted.1,
   ⟨t.2.1, t.2.2.1, t.2.2.2, planted.2, hq_created⟩,
   [Op.delLinkAssignments, Op.delLinkConsumptions, Op.delLinks,
    Op.delAirplaneConfigurations, Op.delAirplanes, Op.delBases, Op.delAppeal,
    Op.updateFinancialProfile]
   ++ (if hq_created then [Op.insertBase] else [])
   ++ List.replicate planted.2 Op.insertAirplane)

/-- One bot's processing under fault injection.  `fault bot_id = true`
models a storage failure raised by the `UPDATE airline_info` statement,
i.e. after the teardown `DELETE`s have executed inside the still-open
transaction; since any raised exception makes the handler roll the whole
transaction back, the pending pre-failure writes are unobservable and the
embedded error result carries no state. -/
def processBot (fault : ℕ → Bool) (sample : List AirplaneModel → ℕ → List AirplaneModel)
    (cheap_models : List AirplaneModel) (current_cycle : ℕ) (db : DB) (bot : BotRow) :
    Except Unit (DB × ResetCounts × List Op) :=
  if fault bot.id then .error ()
  else .ok (processBotOk sample cheap_models current_cycle db bot)

/-! ## The three Flask handlers.  Each returns the committed database (the
input state on every path that does not reach `conn.commit()`) together
with the JSON response. -/

/-- A handler response: `success` / HTTP status / `message` as returned by
`jsonify`. -/
structure ApiResponse where
  success : Bool
  status : ℕ
  message : String
  deriving DecidableEq, Repr

/-- The success message of `reset_single_bot` (app.py line 1241).  Note it
contains the fixed text "Created new HQ." whether or not a base was
inserted. -/
def resetSingleMessage (name : String) (routes aircraft bases added : ℕ) : String :=
  "Reset bot airline " ++ name ++ ". Deleted " ++ toString routes ++ " routes, "
    ++ toString aircraft ++ " aircraft, " ++ toString bases
    ++ " bases. Created new HQ. Added " ++ toString added
    ++ " new aircraft. Balance reset to $200,000, reputation to 0."

/-- `reset_single_bot` (app.py lines 1120-1255).  All statements run inside
one transaction; the single `conn.commit()` is the success return, and the
`except` clause rolls back, so every non-success path returns the input
database. -/
def reset_single_bot (fault : ℕ → Bool)
    (sample : List AirplaneModel → ℕ → List AirplaneModel)
    (db : DB) (bot_id : ℕ) : DB × ApiResponse × List Op :=
  match db.airlines.find? (fun a => decide (a.id = bot_id)) with
  | none =>
    (db, ⟨false, 404, "Airline with ID " ++ toString bot_id ++ " not found"⟩, [])
  | some a =>
    if a.airline_type ≠ 2 then
      (db, ⟨false, 400, "Airline " ++ a.name ++ " is not a bot airline"⟩, [])
    else
      -- LEFT JOIN airline_info for the stored country code
      let stored := ((db.infos.find? (fun i => decide (i.airline = bot_id))).bind
        AirlineInfo.country_code)
      match processBot fault sample (cheapModels db) (currentCycle db) db
          ⟨bot_id, a.name, stored⟩ with
      | .error _ => (db, ⟨false, 500, "StorageError"⟩, [])
      | .ok r =>
        (r.1, ⟨true, 200, resetSingleMessage a.name r.2.1.routes_deleted
          r.2.1.aircraft_deleted r.2.1.bases_deleted r.2.1.aircraft_added⟩, r.2.2)

/-- Accumulated counters of the batch reset. -/
structure BatchTotals where
  routes_deleted : ℕ
  aircraft_deleted : ℕ
  bases_deleted : ℕ
  aircraft_added : ℕ
  hqs_created : ℕ
  deriving DecidableEq, Repr

/-- The `for bot in bots:` loop of `reset_bots` (app.py lines 1019-1097):
every iteration runs in the same transaction; the first raised exception
aborts the whole loop. -/
def processAll (fault : ℕ → Bool) (sample : List AirplaneModel → ℕ → List AirplaneModel)
    (cheap_models : List AirplaneModel) (current_cycle : ℕ) :
    List BotRow → DB → BatchTotals → Except Unit (DB × BatchTotals)
  | [], db, t => .ok (db, t)
  | b :: bs, db, t =>
    match processBot fault sample cheap_models current_cycle db b with
    | .error e => .error e
    | .ok r =>
      processAll fault sample cheap_models current_cycle bs r.1
        ⟨t.routes_deleted + r.2.1.routes_deleted,
         t.aircraft_deleted + r.2.1.aircraft_deleted,
         t.bases_deleted + r.2.1.bases_deleted,
         t.aircraft_added + r.2.1.aircraft_added,
         t.hqs_created + (if r.2.1.hq_created then 1 else 0)⟩

/-- The response of `reset_bots`; `bots_reset` is `none` when the JSON
payload carries no `bots_reset` key (the no-bots and failure paths). -/
structure BatchResponse where
  success : Bool
  status : ℕ
  message : String
  bots_reset : Option (List String)
  deriving DecidableEq, Repr

/-- The success message of `reset_bots` (app.py line 1103). -/
def resetBatchMessage (n : ℕ) (t : BatchTotals) : String :=
  "Reset " ++ toString n ++ " bot airlines. Deleted " ++ toString t.routes_deleted
    ++ " routes, " ++ toString t.aircraft_deleted ++ " aircraft, "
    ++ toString t.bases_deleted ++ " bases. Created " ++ toString t.hqs_created
    ++ " HQs. Added " ++ toString t.aircraft_added
    ++ " new aircraft. Balance reset to $200,000, reputation to 0."

/-- `reset_bots` (app.py lines 977-1118).  One transaction for the whole
batch: the single `conn.commit()` sits after the loop, and any exception
rolls everything back and produces one aggregate error response. -/
def reset_bots (fault : ℕ → Bool)
    (sample : List AirplaneModel → ℕ → List AirplaneModel)
    (db : DB) : DB × BatchResponse :=
  -- SELECT a.id, a.name, ai.country_code FROM airline a LEFT JOIN airline_info … WHERE airline_type = 2
  let bots := (db.airlines.filter (fun a => decide (a.airline_type = 2))).map (fun a =>
    (⟨a.id, a.name,
      (db.infos.find? (fun i => decide (i.airline = a.id))).bind AirlineInfo.country_code⟩ : BotRow))
  if bots.isEmpty then
    (db, ⟨true, 200, "No bot airlines found to reset", none⟩)
  else
    match processAll fault sample (cheapModels db) (currentCycle db) bots db ⟨0, 0, 0, 0, 0⟩ with
    | .error _ => (db, ⟨false, 500, "StorageError", none⟩)
    | .ok r =>
      (r.1, ⟨true, 200, resetBatchMessage bots.length r.2, some (bots.map BotRow.name)⟩)

/-- The JSON body of a `create_bot` request (`data.get(key, default)`
returns the default exactly when the key is absent, which `none` models). -/
structure CreateRequest where
  name : Option String
  country_code : Option String
  airport_iata : Option String
  deriving DecidableEq, Repr

/-- The response of `create_bot`; `airline_id` is `none` when the payload
has no `airline_id` key (the failure paths). -/
structure CreateResponse where
  success : Bool
  status : ℕ
  message : String
  airline_id : Option ℕ
  deriving DecidableEq, Repr

/-- The success message of `create_bot` (app.py line 1336). -/
def createMessage (name : String) (airline_id : ℕ) (code : String) (added : ℕ) : String :=
  "Created bot airline \"" ++ name ++ "\" (ID: " ++ toString airline_id
    ++ ") with HQ in " ++ code ++ ". Added " ++ toString added ++ " aircraft."

/-- The HQ-resolution step of `create_bot` (app.py lines 1276-1296): an
explicit airport hint takes precedence (`if airport_iata:` — Python
truthiness, so an empty string behaves as absent) and fixes the country
code; otherwise the biggest airport of the requested country is used.
Either lookup failure is a 404 error. -/
def createResolve (db : DB) (req : CreateRequest) : Except String (ℕ × String) :=
  let country_code := req.country_code.getD "US"
  let iata := match req.airport_iata with
    | some s => if s = "" then none else some s
    | none => none
  match iata with
  | some s =>
    match db.airports.find? (fun ap => decide (ap.iata = s)) with
    | some ap => .ok (ap.id, ap.country_code)
    | none => .error ("Airport " ++ s ++ " not found")
  | none =>
    match selectHqAirport db country_code with
    | some apId => .ok (apId, country_code)
    | none => .error ("No airport found in country " ++ country_code)

/-- `create_bot` (app.py lines 1257-1351).  Both resolution failures return
a 404 *error* before any insert; the success path creates the airline row,
its financial profile, an HQ base, and up to five cheap airplanes, then
commits. -/
def create_bot (sample : List AirplaneModel → ℕ → List AirplaneModel)
    (db : DB) (req : CreateRequest) : DB × CreateResponse :=
  let name := req.name.getD "New Bot Airline"
  let current_cycle := currentCycle db
  match createResolve db req with
  | .error msg => (db, ⟨false, 404, msg, none⟩)
  | .ok hq =>
    -- INSERT INTO airline (name, airline_type) VALUES (%s, 2); lastrowid
    let airline_id := db.next_airline_id
    let db1 := { db with airlines := db.airlines ++ [(⟨airline_id, name, 2⟩ : Airline)],
                          next_airline_id := airline_id + 1 }
    -- INSERT INTO airline_info (airline, balance, service_quality,
    --   target_service_quality, reputation, country_code, initialized)
    -- VALUES (%s, 200000, 50.00, 50, 0, %s, 1)
    let db2 := { db1 with infos := db1.infos ++
      [(⟨airline_id, 200000, 0, 50, 50, some hq.2, true⟩ : AirlineInfo)] }
    -- INSERT INTO airline_base (airport, airline, scale, founded_cycle, headquarter, country)
    let db3 := { db2 with bases := db2.bases ++
      [(⟨hq.1, airline_id, 1, current_cycle, true, hq.2⟩ : AirlineBase)] }
    let cheap := cheapModels db3
    let selected := if cheap.isEmpty then [] else sample cheap (min 5 cheap.length)
    let planted := insertPlanes airline_id current_cycle (some hq.1) selected db3
    (planted.1, ⟨true, 200, createMessage name airline_id hq.2 planted.2, some airline_id⟩)

/-! ## Auxiliary notions used by the theorems -/

/-- The contract of `random.sample(pool, k)` for `k ≤ |pool|`: the draw has
exactly `k` elements and is a sample without replacement, i.e. a
sub-permutation of the pool. -/
def SampleOK (sample : List AirplaneModel → ℕ → List AirplaneModel) : Prop :=
  ∀ l k, k ≤ l.length → (sample l k).length = k ∧ (sample l k).Subperm l

/-- A concrete seedable sampler (the deterministic draw taking the cheapest
models), used to instantiate the theorems on concrete inputs. -/
def takeSample : List AirplaneModel → ℕ → List AirplaneModel := fun l k => l.take k

/-- The fault-free storage layer. -/
def noFault : ℕ → Bool := fun _ => false

theorem takeSample_ok : SampleOK takeSample := by
  intro l k hk
  constructor
  · simpa [takeSample] using Nat.min_eq_left hk
  · exact (List.take_sublist k l).subperm

/-- The rows appended by the airplane-insert loop, with the consecutive
AUTO_INCREMENT ids it consumes. -/
def newPlanesFrom (owner cyc : ℕ) (home : Option ℕ) :
    List AirplaneModel → ℕ → List Airplane
  | [], _ => []
  | m :: ms, i => mkAirplane i m.id owner cyc m.price home :: newPlanesFrom owner cyc home ms (i + 1)

theorem newPlanesFrom_length (owner cyc : ℕ) (home : Option ℕ) :
    ∀ (ms : List AirplaneModel) (i : ℕ), (newPlanesFrom owner cyc home ms i).length = ms.length
  | [], _ => rfl
  | _ :: ms, i => by simp [newPlanesFrom, newPlanesFrom_length owner cyc home ms (i + 1)]

theorem newPlanesFrom_mem (owner cyc : ℕ) (home : Option ℕ) :
    ∀ {ms : List AirplaneModel} {i : ℕ} {p : Airplane}, p ∈ newPlanesFrom owner cyc home ms i →
      p.owner = owner ∧ p.airplane_condition = 100 ∧ p.depreciation_rate = 0 ∧
      p.is_sold = false ∧ p.constructed_cycle = cyc ∧ p.purchased_cycle = cyc ∧
      p.home = home ∧ ∃ m ∈ ms, p.model = m.id ∧ p.value = m.price := by
  intro ms
  induction ms with
  | nil => intro i p hp; simp [newPlanesFrom] at hp
  | cons m ms ih =>
    intro i p hp
    rcases List.mem_cons.mp hp with h | h
    · subst h
      refine ⟨rfl, rfl, rfl, rfl, rfl, rfl, rfl, m, List.mem_cons_self m ms, rfl, rfl⟩
    · obtain ⟨h1, h2, h3, h4, h5, h6, h7, m', hm', h8⟩ := ih h
      exact ⟨h1, h2, h3, h4, h5, h6, h7, m', List.mem_cons_of_mem m hm', h8⟩

theorem newPlanesFrom_map (owner cyc : ℕ) (home : Option ℕ) :
    ∀ (ms : List AirplaneModel) (i : ℕ),
      (newPlanesFrom owner cyc home ms i).map (fun p => (p.model, p.value)) =
        ms.map (fun m => (m.id, m.price))
  | [], _ => rfl
  | m :: ms, i => by
    simp [newPlanesFrom, mkAirplane, newPlanesFrom_map owner cyc home ms (i + 1)]

/-- Closed form of the airplane-insert loop. -/
theorem insertPlanes_eq (owner cyc : ℕ) (home : Option ℕ) :
    ∀ (ms : List AirplaneModel) (db : DB),
      insertPlanes owner cyc home ms db =
        ({ db with
            airplanes := db.airplanes ++ newPlanesFrom owner cyc home ms db.next_airplane_id,
            next_airplane_id := db.next_airplane_id + ms.length }, ms.length)
  | [], db => by simp [insertPlanes, newPlanesFrom]
  | m :: ms, db => by
    simp only [insertPlanes, insertPlanes_eq owner cyc home ms, newPlanesFrom,
      List.length_cons]
    refine Prod.ext ?_ rfl
    simp [List.append_assoc]
    omega

/-- Closed form of the teardown ladder: all deletions expressed as filters
over the incoming state. -/
theorem teardown_eq (db : DB) (bot_id : ℕ) :
    teardown db bot_id =
      ({ db with
          link_assignments := db.link_assignments.filter (fun la =>
            decide (la.link ∉ (db.links.filter (fun l => decide (l.airline = bot_id))).map Link.id)),
          link_consumptions := db.link_consumptions.filter (fun lc =>
            decide (lc.link ∉ (db.links.filter (fun l => decide (l.airline = bot_id))).map Link.id)),
          links := db.links.filter (fun l => decide (l.airline ≠ bot_id)),
          airplane_configurations := db.airplane_configurations.filter (fun c =>
            decide (c.airplane ∉ (db.airplanes.filter (fun p => decide (p.owner = bot_id))).map Airplane.id)),
          airplanes := db.airplanes.filter (fun p => decide (p.owner ≠ bot_id)),
          bases := db.bases.filter (fun b => decide (b.airline ≠ bot_id)),
          appeals := db.appeals.filter (fun a => decide (a.airline ≠ bot_id)) },
       (db.links.filter (fun l => decide (l.airline = bot_id))).length,
       (db.airplanes.filter (fun p => decide (p.owner = bot_id))).length,
       (db.bases.filter (fun b => decide (b.airline = bot_id))).length) := rfl

/-- Closed form of the committed state of one successful bot reset. -/
theorem processBotOk_fst (sample : List AirplaneModel → ℕ → List AirplaneModel)
    (cheap_models : List AirplaneModel) (current_cycle : ℕ) (db : DB) (bot : BotRow) :
    (processBotOk sample cheap_models current_cycle db bot).1 =
      (let code := resetCountryCode bot.country_code bot.name
       let db2 := applyProfileReset (teardown db bot.id).1 bot.id code
       let hq := resetHqAirport db2 code
       let selected := if cheap_models.isEmpty then []
                       else sample cheap_models (min 5 cheap_models.length)
       { db2 with
          bases := db2.bases ++ hqBaseInsert bot.id current_cycle hq code,
          airplanes := db2.airplanes ++
            newPlanesFrom bot.id current_cycle hq selected db2.next_airplane_id,
          next_airplane_id := db2.next_airplane_id + selected.length }) := by
  simp only [processBotOk, insertPlanes_eq]

/-- The counters of one successful bot reset. -/
theorem processBotOk_counts (sample : List AirplaneModel → ℕ → List AirplaneModel)
    (cheap_models : List AirplaneModel) (current_cycle : ℕ) (db : DB) (bot : BotRow) :
    (processBotOk sample cheap_models current_cycle db bot).2.1 =
      (let code := resetCountryCode bot.country_code bot.name
       let db2 := applyProfileReset (teardown db bot.id).1 bot.id code
       let hq := resetHqAirport db2 code
       let selected := if cheap_models.isEmpty then []
                       else sample cheap_models (min 5 cheap_models.length)
       ⟨(db.links.filter (fun l => decide (l.airline = bot.id))).length,
        (db.airplanes.filter (fun p => decide (p.owner = bot.id))).length,
        (db.bases.filter (fun b => decide (b.airline = bot.id))).length,
        selected.length,
        decide (hqBaseInsert bot.id current_cycle hq code ≠ [])⟩) := by
  simp only [processBotOk, insertPlanes_eq, teardown_eq]

/-- The journal of one successful bot reset. -/
theorem processBotOk_journal (sample : List AirplaneModel → ℕ → List AirplaneModel)
    (cheap_models : List AirplaneModel) (current_cycle : ℕ) (db : DB) (bot : BotRow) :
    (processBotOk sample cheap_models current_cycle db bot).2.2 =
      (let code := resetCountryCode bot.country_code bot.name
       let hq := resetHqAirport db code
       let selected := if cheap_models.isEmpty then []
                       else sample cheap_models (min 5 cheap_models.length)
       [Op.delLinkAssignments, Op.delLinkConsumptions, Op.delLinks,
        Op.delAirplaneConfigurations, Op.delAirplanes, Op.delBases, Op.delAppeal,
        Op.updateFinancialProfile]
       ++ (if decide (hqBaseInsert bot.id current_cycle hq code ≠ []) then [Op.insertBase] else [])
       ++ List.replicate selected.length Op.insertAirplane) := by
  simp only [processBotOk, insertPlanes_eq]
  rfl

/-- Inversion of a successful `reset_single_bot` run. -/
theorem reset_single_success_inv (fault : ℕ → Bool)
    (sample : List AirplaneModel → ℕ → List AirplaneModel) (db : DB) (bot_id : ℕ)
    (h : (reset_single_bot fault sample db bot_id).2.1.success = true) :
    ∃ a, db.airlines.find? (fun x => decide (x.id = bot_id)) = some a ∧
      a.airline_type = 2 ∧ fault bot_id = false := by
  unfold reset_single_bot at h
  cases hfind : db.airlines.find? (fun x => decide (x.id = bot_id)) with
  | none => rw [hfind] at h; simp at h
  | some a =>
    rw [hfind] at h
    by_cases hty : a.airline_type = 2
    · refine ⟨a, rfl, hty, ?_⟩
      simp only [hty, ne_eq, not_true_eq_false, if_false] at h
      unfold processBot at h
      cases hf : fault bot_id with
      | false => rfl
      | true => rw [hf] at h; simp at h
    · simp [hty] at h

/-- The success path of `reset_single_bot`, expressed through
`processBotOk`. -/
theorem reset_single_bot_ok (fault : ℕ → Bool)
    (sample : List AirplaneModel → ℕ → List AirplaneModel) (db : DB) (bot_id : ℕ)
    (a : Airline) (hfind : db.airlines.find? (fun x => decide (x.id = bot_id)) = some a)
    (hty : a.airline_type = 2) (hfault : fault bot_id = false) :
    reset_single_bot fault sample db bot_id =
      (let stored := (db.infos.find? (fun i => decide (i.airline = bot_id))).bind
        AirlineInfo.country_code
       let r := processBotOk sample (cheapModels db) (currentCycle db) db ⟨bot_id, a.name, stored⟩
       (r.1, ⟨true, 200, resetSingleMessage a.name r.2.1.routes_deleted r.2.1.aircraft_deleted
          r.2.1.bases_deleted r.2.1.aircraft_added⟩, r.2.2)) := by
  unfold reset_single_bot processBot
  rw [hfind]
  simp [hty, hfault]

/-- `locLE a b`: `b` sorts no later than `a` under
`ORDER BY airport_size DESC, population DESC` (i.e. `b` is at least as
large, tie-broken by population). -/
def locLE (a b : Airport) : Prop :=
  a.airport_size < b.airport_size ∨
    (a.airport_size = b.airport_size ∧ a.population ≤ b.population)

theorem betterAirport_false_iff (a b : Airport) :
    betterAirport a b = false ↔ locLE a b := by
  simp only [betterAirport, locLE, decide_eq_false_iff_not]
  omega

theorem betterAirport_true_locLE (a b : Airport) (h : betterAirport a b = true) :
    locLE b a := by
  simp only [betterAirport, decide_eq_true_eq] at h
  simp only [locLE]
  omega

theorem locLE_trans {a b c : Airport} (h1 : locLE a b) (h2 : locLE b c) : locLE a c := by
  simp only [locLE] at *
  omega

theorem pickTopFrom_mem (l : List Airport) : ∀ (best : Airport),
    pickTopFrom best l = best ∨ pickTopFrom best l ∈ l := by
  induction l with
  | nil => intro best; left; rfl
  | cons a rest ih =>
    intro best
    simp only [pickTopFrom]
    rcases ih (if betterAirport a best then a else best) with h | h
    · rw [h]
      by_cases hb : betterAirport a best = true
      · right; simp [hb]
      · left; simp [hb]
    · right; exact List.mem_cons_of_mem a h

theorem pickTopFrom_le (l : List Airport) : ∀ (best : Airport),
    locLE best (pickTopFrom best l) ∧ ∀ x ∈ l, locLE x (pickTopFrom best l) := by
  induction l with
  | nil =>
    intro best
    exact ⟨Or.inr ⟨rfl, le_refl _⟩, by simp⟩
  | cons a rest ih =>
    intro best
    simp only [pickTopFrom]
    obtain ⟨h1, h2⟩ := ih (if betterAirport a best then a else best)
    by_cases hb : betterAirport a best = true
    · rw [hb] at h1 h2 ⊢
      simp only [if_true] at h1 h2 ⊢
      refine ⟨locLE_trans (betterAirport_true_locLE a best hb) h1, ?_⟩
      intro x hx
      rcases List.mem_cons.mp hx with h | h
      · rw [h]; exact h1
      · exact h2 x h
    · rw [Bool.not_eq_true] at hb
      rw [hb] at h1 h2 ⊢
      simp only [Bool.false_eq_true, if_false] at h1 h2 ⊢
      refine ⟨h1, ?_⟩
      intro x hx
      rcases List.mem_cons.mp hx with h | h
      · rw [h]
        exact locLE_trans ((betterAirport_false_iff a best).mp hb) h1
      · exact h2 x h

/-- Correctness of the embedded `ORDER BY airport_size DESC, population
DESC LIMIT 1` query: the returned id belongs to a candidate of the
requested country that no other candidate of that country beats. -/
theorem selectHqAirport_spec (db : DB) (code : String) (i : ℕ)
    (h : selectHqAirport db code = some i) :
    ∃ ap ∈ db.airports, ap.id = i ∧ ap.country_code = code ∧
      ∀ b ∈ db.airports, b.country_code = code → locLE b ap := by
  unfold selectHqAirport at h
  cases hf : db.airports.filter (fun ap => decide (ap.country_code = code)) with
  | nil => rw [hf] at h; simp [pickTop] at h
  | cons x rest =>
    rw [hf] at h
    simp only [pickTop, Option.map_some', Option.some.injEq] at h
    refine ⟨pickTopFrom x rest, ?_, h, ?_, ?_⟩
    · have hmem : pickTopFrom x rest ∈ x :: rest := by
        rcases pickTopFrom_mem rest x with h' | h'
        · rw [h']; exact List.mem_cons_self x rest
        · exact List.mem_cons_of_mem x h'
      have := hf ▸ hmem
      exact (List.mem_filter.mp this).1
    · have hmem : pickTopFrom x rest ∈ x :: rest := by
        rcases pickTopFrom_mem rest x with h' | h'
        · rw [h']; exact List.mem_cons_self x rest
        · exact List.mem_cons_of_mem x h'
      have := hf ▸ hmem
      have := (List.mem_filter.mp this).2
      simpa using this
    · intro b hb hbc
      have hbf : b ∈ db.airports.filter (fun ap => decide (ap.country_code = code)) :=
        List.mem_filter.mpr ⟨hb, by simpa using hbc⟩
      rw [hf] at hbf
      obtain ⟨h1, h2⟩ := pickTopFrom_le rest x
      rcases List.mem_cons.mp hbf with h' | h'
      · subst h'; exact h1
      · exact h2 b h'

/-! ### Post-state of one successful bot reset, field by field -/

theorem processBotOk_infos (sample : List AirplaneModel → ℕ → List AirplaneModel)
    (cheap_models : List AirplaneModel) (current_cycle : ℕ) (db : DB) (bot : BotRow) :
    (processBotOk sample cheap_models current_cycle db bot).1.infos =
      db.infos.map (fun i =>
        if i.airline = bot.id then
          { i with balance := 200000, reputation := 0, service_quality := 50,
                   country_code := match resetCountryCode bot.country_code bot.name with
                     | some c => some c
                     | none => i.country_code }
        else i) := by
  rw [processBotOk_fst]
  rfl

theorem processBotOk_bases (sample : List AirplaneModel → ℕ → List AirplaneModel)
    (cheap_models : List AirplaneModel) (current_cycle : ℕ) (db : DB) (bot : BotRow) :
    (processBotOk sample cheap_models current_cycle db bot).1.bases =
      db.bases.filter (fun b => decide (b.airline ≠ bot.id)) ++
        hqBaseInsert bot.id current_cycle
          (resetHqAirport db (resetCountryCode bot.country_code bot.name))
          (resetCountryCode bot.country_code bot.name) := by
  rw [processBotOk_fst]
  rfl

theorem processBotOk_airplanes (sample : List AirplaneModel → ℕ → List AirplaneModel)
    (cheap_models : List AirplaneModel) (current_cycle : ℕ) (db : DB) (bot : BotRow) :
    (processBotOk sample cheap_models current_cycle db bot).1.airplanes =
      db.airplanes.filter (fun p => decide (p.owner ≠ bot.id)) ++
        newPlanesFrom bot.id current_cycle
          (resetHqAirport db (resetCountryCode bot.country_code bot.name))
          (if cheap_models.isEmpty then []
           else sample cheap_models (min 5 cheap_models.length))
          db.next_airplane_id := by
  rw [processBotOk_fst]
  rfl

theorem processBotOk_links (sample : List AirplaneModel → ℕ → List AirplaneModel)
    (cheap_models : List AirplaneModel) (current_cycle : ℕ) (db : DB) (bot : BotRow) :
    (processBotOk sample cheap_models current_cycle db bot).1.links =
      db.links.filter (fun l => decide (l.airline ≠ bot.id)) := by
  rw [processBotOk_fst]
  rfl

theorem processBotOk_link_assignments (sample : List AirplaneModel → ℕ → List AirplaneModel)
    (cheap_models : List AirplaneModel) (current_cycle : ℕ) (db : DB) (bot : BotRow) :
    (processBotOk sample cheap_models current_cycle db bot).1.link_assignments =
      db.link_assignments.filter (fun la =>
        decide (la.link ∉ (db.links.filter (fun l => decide (l.airline = bot.id))).map Link.id)) := by
  rw [processBotOk_fst]
  rfl

theorem processBotOk_link_consumptions (sample : List AirplaneModel → ℕ → List AirplaneModel)
    (cheap_models : List AirplaneModel) (current_cycle : ℕ) (db : DB) (bot : BotRow) :
    (processBotOk sample cheap_models current_cycle db bot).1.link_consumptions =
      db.link_consumptions.filter (fun lc =>
        decide (lc.link ∉ (db.links.filter (fun l => decide (l.airline = bot.id))).map Link.id)) := by
  rw [processBotOk_fst]
  rfl

theorem processBotOk_configurations (sample : List AirplaneModel → ℕ → List AirplaneModel)
    (cheap_models : List AirplaneModel) (current_cycle : ℕ) (db : DB) (bot : BotRow) :
    (processBotOk sample cheap_models current_cycle db bot).1.airplane_configurations =
      db.airplane_configurations.filter (fun c =>
        decide (c.airplane ∉ (db.airplanes.filter (fun p => decide (p.owner = bot.id))).map Airplane.id)) := by
  rw [processBotOk_fst]
  rfl

/-- Every row a `hqBaseInsert` produces belongs to the bot, is the
headquarters, and sits at scale 1. -/
theorem hqBaseInsert_shape (bot_id current_cycle : ℕ) (hq : Option ℕ) (code : Option String) :
    hqBaseInsert bot_id current_cycle hq code = [] ∨
    ∃ ap c, hq = some ap ∧ code = some c ∧ ap ≠ 0 ∧
      hqBaseInsert bot_id current_cycle hq code =
        [⟨ap, bot_id, 1, current_cycle, true, c⟩] := by
  unfold hqBaseInsert
  match hq, code with
  | none, _ => left; rfl
  | some ap, none => left; rfl
  | some ap, some c =>
    by_cases h : ap = 0
    · left; simp [h]
    · right; exact ⟨ap, c, rfl, rfl, h, by simp [h]⟩

/-! ## Claim C4: classifier order, thresholds, and test vectors -/

/-- Modelled from the spec: the decision procedure of §4.5, order and
thresholds verbatim, to be compared with the source-derived
`determine_personality_core`. -/
def classify_spec (balance reputation service_quality : ℚ) : String :=
  if service_quality > 70 then "PREMIUM"
  else if balance / 10000000 < 2 ∧ reputation < 30 then "BUDGET"
  else if reputation > 70 then "CONSERVATIVE"
  else if balance / 10000000 > 10 then "AGGRESSIVE"
  else if service_quality < 40 then "REGIONAL"
  else "BALANCED"

theorem coerceOne_vnum (q : ℚ) : coerceOne (.vnum q) = some q := by
  by_cases h : q = 0 <;> simp [coerceOne, pyTruthy, pyFloat, h]

/-- C4: on numeric inputs the classifier agrees with the spec's ordered
decision list (first match wins, exact thresholds), and the six spec test
vectors map to PREMIUM, BUDGET, CONSERVATIVE, AGGRESSIVE, REGIONAL,
BALANCED. -/
theorem personality_order_and_vectors :
    (∀ b r q : ℚ, determine_personality (.vnum b) (.vnum r) (.vnum q) = classify_spec b r q)
    ∧ determine_personality (.vnum 0) (.vnum 0) (.vnum 80) = "PREMIUM"
    ∧ determine_personality (.vnum 5000000) (.vnum 10) (.vnum 50) = "BUDGET"
    ∧ determine_personality (.vnum 0) (.vnum 80) (.vnum 50) = "CONSERVATIVE"
    ∧ determine_personality (.vnum 150000000) (.vnum 50) (.vnum 50) = "AGGRESSIVE"
    ∧ determine_personality (.vnum 0) (.vnum 50) (.vnum 30) = "REGIONAL"
    ∧ determine_personality (.vnum 0) (.vnum 50) (.vnum 50) = "BALANCED" := by
  have hmain : ∀ b r q : ℚ,
      determine_personality (.vnum b) (.vnum r) (.vnum q) = classify_spec b r q := by
    intro b r q
    simp only [determine_personality, coerceOne_vnum]
    rfl
  refine ⟨hmain, ?_, ?_, ?_, ?_, ?_, ?_⟩ <;> rw [hmain] <;> norm_num [classify_spec]

/-! ## Claim C5: coercion of non-numeric and missing inputs -/

/-- C5 counterexample: replacing the single non-numeric argument `"abc"`
by zero while keeping the other arguments does NOT yield the same category:
one bad string zeroes all three arguments (the `except` clause), so
(0, 80, "abc") classifies as BUDGET while (0, 80, 0) classifies as
CONSERVATIVE. -/
theorem personality_single_bad_arg_cex :
    determine_personality (.vnum 0) (.vnum 80) (.vstr "abc") = "BUDGET" ∧
    determine_personality (.vnum 0) (.vnum 80) (.vnum 0) = "CONSERVATIVE" ∧
    determine_personality (.vnum 0) (.vnum 80) (.vstr "abc") ≠
      determine_personality (.vnum 0) (.vnum 80) (.vnum 0) := by
  have habc : coerceOne (.vstr "abc") = none := by decide
  have h1 : determine_personality (.vnum 0) (.vnum 80) (.vstr "abc") = "BUDGET" := by
    simp only [determine_personality, habc, coerceOne_vnum]
    norm_num [determine_personality_core]
  have h2 : determine_personality (.vnum 0) (.vnum 80) (.vnum 0) = "CONSERVATIVE" := by
    simp only [determine_personality, coerceOne_vnum]
    norm_num [determine_personality_core]
  refine ⟨h1, h2, ?_⟩
  rw [h1, h2]
  decide

theorem determine_personality_core_mem (b r q : ℚ) :
    determine_personality_core b r q ∈
      ["PREMIUM", "BUDGET", "CONSERVATIVE", "AGGRESSIVE", "REGIONAL", "BALANCED"] := by
  simp only [determine_personality_core]
  by_cases h1 : q > 70
  · simp [h1]
  · by_cases h2 : b / 10000000 < 2 ∧ r < 30
    · simp [h1, h2]
    · by_cases h3 : r > 70
      · simp [h1, h2, h3]
      · by_cases h4 : b / 10000000 > 10
        · simp [h1, h2, h3, h4]
        · by_cases h5 : q < 40
          · simp [h1, h2, h3, h4, h5]
          · simp [h1, h2, h3, h4, h5]

/-- C5 (amended): the classifier is total and never raises — it always
returns one of the six categories; a *missing* (`None`, hence falsy)
argument is coerced to zero individually; but an unparseable truthy
argument (a non-numeric string) makes the conversion raise, after which all
three arguments are zeroed together before classification. -/
theorem personality_total_coercion (b r q : PyVal) :
    determine_personality b r q ∈
      ["PREMIUM", "BUDGET", "CONSERVATIVE", "AGGRESSIVE", "REGIONAL", "BALANCED"] ∧
    determine_personality .vnone r q = determine_personality (.vnum 0) r q ∧
    determine_personality b .vnone q = determine_personality b (.vnum 0) q ∧
    determine_personality b r .vnone = determine_personality b r (.vnum 0) ∧
    ((coerceOne b = none ∨ coerceOne r = none ∨ coerceOne q = none) →
      determine_personality b r q = determine_personality_core 0 0 0) := by
  have hnone : coerceOne PyVal.vnone = some 0 := rfl
  have hzero : coerceOne (.vnum 0) = some 0 := coerceOne_vnum 0
  refine ⟨?_, ?_, ?_, ?_, ?_⟩
  · unfold determine_personality
    cases coerceOne b <;> cases coerceOne r <;> cases coerceOne q <;>
      first
        | exact determine_personality_core_mem 0 0 0
        | exact determine_personality_core_mem _ _ _
  · simp only [determine_personality, hnone, hzero]
  · simp only [determine_personality, hnone, hzero]
  · simp only [determine_personality, hnone, hzero]
  · intro h
    unfold determine_personality
    rcases h with h | h | h <;> rw [h] <;>
      cases coerceOne b <;> cases coerceOne r <;> cases coerceOne q <;> rfl

/-- C5 witness: a concrete unparseable string zeroes everything; a concrete
missing value is coerced individually. -/
theorem personality_total_coercion_witness :
    determine_personality (.vstr "zz") (.vnum 80) (.vnum 80) =
      determine_personality_core 0 0 0 ∧
    determine_personality .vnone (.vnum 5) (.vnum 80) =
      determine_personality (.vnum 0) (.vnum 5) (.vnum 80) :=
  ⟨(personality_total_coercion (.vstr "zz") (.vnum 80) (.vnum 80)).2.2.2.2
      (Or.inl (by decide)),
   (personality_total_coercion .vnone (.vnum 5) (.vnum 80)).2.1⟩

/-! ## Claim C2: single-entity reset is atomic -/

/-- C2: whenever `reset_single_bot` does not succeed — in particular when a
storage failure fires after teardown has begun inside the transaction —
the committed state equals the pre-state exactly: no partial effect is
observable. -/
theorem reset_single_bot_atomic (fault : ℕ → Bool)
    (sample : List AirplaneModel → ℕ → List AirplaneModel) (db : DB) (bot_id : ℕ)
    (h : (reset_single_bot fault sample db bot_id).2.1.success = false) :
    (reset_single_bot fault sample db bot_id).1 = db := by
  unfold reset_single_bot at h ⊢
  cases hfind : db.airlines.find? (fun x => decide (x.id = bot_id)) with
  | none => rfl
  | some a =>
    rw [hfind] at h
    by_cases hty : a.airline_type = 2
    · simp only [hty, ne_eq, not_true_eq_false, if_false] at h ⊢
      unfold processBot at h ⊢
      cases hf : fault bot_id with
      | true => simp [hf]
      | false => rw [hf] at h; simp at h
    · simp [hty]

/-- Concrete store for the atomicity witness: one bot with a route, an
assignment row, and a pre-reset balance of 999. -/
def dbSingle : DB :=
  { airlines := [⟨1, "BotOne", 2⟩],
    infos := [⟨1, 999, 10, 20, 30, some "US", true⟩],
    links := [⟨7, 1⟩], link_assignments := [⟨7⟩], link_consumptions := [⟨7⟩],
    airplanes := [⟨9, 3, 1, 0, 0, 40, 1, 5, true, none⟩],
    airplane_configurations := [⟨9⟩],
    bases := [⟨5, 1, 3, 0, true, "US"⟩], appeals := [⟨1⟩],
    airports := [⟨5, "JFK", "US", 9, 100⟩],
    models := [⟨3, "cheap", 1000⟩], cycles := [4],
    next_airline_id := 2, next_airplane_id := 10 }

/-- The always-failing storage layer. -/
def allFault : ℕ → Bool := fun _ => true

/-- C2 witness: on a concrete store whose teardown would delete real rows,
an injected storage failure yields a failed response and an unchanged
committed state. -/
theorem reset_single_bot_atomic_witness :
    (reset_single_bot allFault takeSample dbSingle 1).2.1.success = false ∧
    (reset_single_bot allFault takeSample dbSingle 1).1 = dbSingle :=
  ⟨by decide, reset_single_bot_atomic allFault takeSample dbSingle 1 (by decide)⟩

/-! ## Claim C1: the batch reset is NOT per-entity atomic -/

/-- Concrete three-bot store for the batch-reset counterexample; every
balance is 999 before the reset and "US" has an airport, so the first bot
is fully processed before the second fails. -/
def dbBatch : DB :=
  { airlines := [⟨1, "BotA", 2⟩, ⟨2, "BotB", 2⟩, ⟨3, "BotC", 2⟩],
    infos := [⟨1, 999, 10, 20, 30, some "US", true⟩,
              ⟨2, 999, 10, 20, 30, some "US", true⟩,
              ⟨3, 999, 10, 20, 30, some "US", true⟩],
    links := [], link_assignments := [], link_consumptions := [],
    airplanes := [], airplane_configurations := [], bases := [], appeals := [],
    airports := [⟨5, "JFK", "US", 9, 100⟩],
    models := [⟨7, "cheap", 1000⟩], cycles := [3],
    next_airline_id := 4, next_airplane_id := 10 }

/-- The storage failure induced while processing the second entity. -/
def faultSecond : ℕ → Bool := fun i => decide (i = 2)

/-- C1 counterexample: with three bots where the second induces a storage
failure, `reset_bots` does NOT keep the first bot's post-reset state
committed and does NOT return per-entity results: the whole batch rolls
back (the first bot's balance is still 999, not 200000) and the response
is a single aggregate error with no result list. -/
theorem reset_all_not_partial_cex :
    (reset_bots faultSecond takeSample dbBatch).2.success = false ∧
    (reset_bots faultSecond takeSample dbBatch).1 = dbBatch ∧
    ((reset_bots faultSecond takeSample dbBatch).1.infos.map AirlineInfo.balance)
      = [999, 999, 999] ∧
    (reset_bots faultSecond takeSample dbBatch).2.bots_reset = none := by
  refine ⟨by decide, by decide, by decide, by decide⟩

/-- C1 (amended): the batch reset runs as ONE transaction with a single
commit: any failure while processing an entity rolls back the work on all
entities (committed state = pre-state) and produces one aggregate error
response with no per-entity result list. -/
theorem reset_all_single_transaction (fault : ℕ → Bool)
    (sample : List AirplaneModel → ℕ → List AirplaneModel) (db : DB)
    (h : (reset_bots fault sample db).2.success = false) :
    (reset_bots fault sample db).1 = db ∧
    (reset_bots fault sample db).2.bots_reset = none := by
  unfold reset_bots at h ⊢
  set bots := (db.airlines.filter (fun a => decide (a.airline_type = 2))).map (fun a =>
    (⟨a.id, a.name,
      (db.infos.find? (fun i => decide (i.airline = a.id))).bind AirlineInfo.country_code⟩
      : BotRow)) with hbots
  by_cases he : bots.isEmpty
  · simp [he] at h
  · simp only [he, Bool.false_eq_true, if_false] at h ⊢
    cases hp : processAll fault sample (cheapModels db) (currentCycle db) bots db
        ⟨0, 0, 0, 0, 0⟩ with
    | error e => exact ⟨rfl, rfl⟩
    | ok r => rw [hp] at h; simp at h

/-- C1 witness for the amended statement, at the concrete failing batch. -/
theorem reset_all_single_transaction_witness :
    (reset_bots faultSecond takeSample dbBatch).2.success = false ∧
    ((reset_bots faultSecond takeSample dbBatch).1 = dbBatch ∧
     (reset_bots faultSecond takeSample dbBatch).2.bots_reset = none) :=
  ⟨by decide, reset_all_single_transaction faultSecond takeSample dbBatch (by decide)⟩

/-! ## Claims C9 and C10: the create path -/

/-- Concrete store for the create-path theorems: a single US airport and no
entities. -/
def dbCreate : DB :=
  { airlines := [], infos := [], links := [], link_assignments := [],
    link_consumptions := [], airplanes := [], airplane_configurations := [],
    bases := [], appeals := [],
    airports := [⟨5, "JFK", "US", 9, 100⟩],
    models := [⟨3, "cheap", 1000⟩], cycles := [2],
    next_airline_id := 1, next_airplane_id := 1 }

/-- C9 counterexample: with no airport in country "ZZ", `create_bot` FAILS
with a 404 error instead of proceeding without a Base: nothing is created
(the committed state is the pre-state, so no entity, profile or fleet
exists). -/
theorem create_bot_unresolvable_cex :
    (create_bot takeSample dbCreate ⟨some "X", some "ZZ", none⟩).2.success = false ∧
    (create_bot takeSample dbCreate ⟨some "X", some "ZZ", none⟩).2.status = 404 ∧
    (create_bot takeSample dbCreate ⟨some "X", some "ZZ", none⟩).1 = dbCreate := by
  refine ⟨by decide, by decide, by decide⟩

/-- C9 (amended): in `create_bot`, failure to resolve a home Location — an
unknown airport hint, or a market code with no airport — is FATAL: the
handler returns a 404 error and commits nothing (no entity, no financial
profile, no base, no fleet), instead of proceeding without a Base. -/
theorem create_bot_unresolvable_is_fatal
    (sample : List AirplaneModel → ℕ → List AirplaneModel) (db : DB)
    (req : CreateRequest) (s : String) :
    (req.airport_iata = some s → s ≠ "" →
      db.airports.find? (fun ap => decide (ap.iata = s)) = none →
      create_bot sample db req =
        (db, ⟨false, 404, "Airport " ++ s ++ " not found", none⟩)) ∧
    ((req.airport_iata = none ∨ req.airport_iata = some "") →
      selectHqAirport db (req.country_code.getD "US") = none →
      create_bot sample db req =
        (db, ⟨false, 404, "No airport found in country " ++ req.country_code.getD "US",
          none⟩)) := by
  constructor
  · intro h1 h2 h3
    have hres : createResolve db req = .error ("Airport " ++ s ++ " not found") := by
      unfold createResolve
      rw [h1]
      simp [h2, h3]
    unfold create_bot
    rw [hres]
  · intro h1 h2
    have hres : createResolve db req =
        .error ("No airport found in country " ++ req.country_code.getD "US") := by
      unfold createResolve
      rcases h1 with h | h <;> rw [h] <;> simp [h2]
    unfold create_bot
    rw [hres]

/-- C9 witness for the amended statement. -/
theorem create_bot_unresolvable_is_fatal_witness :
    create_bot takeSample dbCreate ⟨some "X", some "ZZ", none⟩ =
      (dbCreate, ⟨false, 404, "No airport found in country " ++ "ZZ", none⟩) :=
  (create_bot_unresolvable_is_fatal takeSample dbCreate ⟨some "X", some "ZZ", none⟩ "").2
    (Or.inl rfl) (by decide)

/-- C10: a create request supplying neither a market code nor an airport
hint behaves exactly as one supplying the fixed defaults (code "US", name
"New Bot Airline"); on success the created entity carries the default name
and the stored market code "US" — the name (whatever it is) is never used
for market inference on the create path. -/
theorem create_bot_defaults (sample : List AirplaneModel → ℕ → List AirplaneModel)
    (db : DB) (name : Option String) :
    create_bot sample db ⟨name, none, none⟩ =
      create_bot sample db ⟨some (name.getD "New Bot Airline"), some "US", none⟩ ∧
    ((create_bot sample db ⟨name, none, none⟩).2.success = true →
      (∃ a ∈ (create_bot sample db ⟨name, none, none⟩).1.airlines,
         a.id = db.next_airline_id ∧ a.name = name.getD "New Bot Airline" ∧
         a.airline_type = 2) ∧
      (∃ i ∈ (create_bot sample db ⟨name, none, none⟩).1.infos,
         i.airline = db.next_airline_id ∧ i.country_code = some "US")) := by
  constructor
  · rfl
  · intro h
    cases hs : selectHqAirport db "US" with
    | none =>
      have hres : createResolve db ⟨name, none, none⟩ =
          .error ("No airport found in country " ++ "US") := by
        unfold createResolve
        simp [hs]
      unfold create_bot at h
      rw [hres] at h
      simp at h
    | some ap =>
      have hres : createResolve db ⟨name, none, none⟩ = .ok (ap, "US") := by
        unfold createResolve
        simp [hs]
      simp only [create_bot, hres, insertPlanes_eq]
      constructor
      · exact ⟨⟨db.next_airline_id, name.getD "New Bot Airline", 2⟩,
          List.mem_append_right _ (List.mem_singleton.mpr rfl), rfl, rfl, rfl⟩
      · exact ⟨⟨db.next_airline_id, 200000, 0, 50, 50, some "US", true⟩,
          List.mem_append_right _ (List.mem_singleton.mpr rfl), rfl, rfl⟩

/-- The success path of `create_bot`, expressed through `createResolve`. -/
theorem create_bot_ok (sample : List AirplaneModel → ℕ → List AirplaneModel)
    (db : DB) (req : CreateRequest) (hq : ℕ × String)
    (hres : createResolve db req = .ok hq) :
    create_bot sample db req =
      (let name := req.name.getD "New Bot Airline"
       let current_cycle := currentCycle db
       let airline_id := db.next_airline_id
       let db3 := { db with
          airlines := db.airlines ++ [(⟨airline_id, name, 2⟩ : Airline)],
          infos := db.infos ++ [(⟨airline_id, 200000, 0, 50, 50, some hq.2, true⟩ : AirlineInfo)],
          bases := db.bases ++ [(⟨hq.1, airline_id, 1, current_cycle, true, hq.2⟩ : AirlineBase)],
          next_airline_id := airline_id + 1 }
       let cheap := cheapModels db
       let selected := if cheap.isEmpty then [] else sample cheap (min 5 cheap.length)
       let planted := insertPlanes airline_id current_cycle (some hq.1) selected db3
       (planted.1, ⟨true, 200, createMessage name airline_id hq.2 planted.2, some airline_id⟩)) := by
  unfold create_bot
  rw [hres]
  rfl

/-- Inversion of a successful `create_bot` run. -/
theorem create_bot_success_inv (sample : List AirplaneModel → ℕ → List AirplaneModel)
    (db : DB) (req : CreateRequest)
    (h : (create_bot sample db req).2.success = true) :
    ∃ hq, createResolve db req = .ok hq := by
  unfold create_bot at h
  cases hres : createResolve db req with
  | error m => rw [hres] at h; simp at h
  | ok hq => exact ⟨hq, rfl⟩

theorem newPlanesFrom_filter_owner (o cyc : ℕ) (home : Option ℕ)
    (ms : List AirplaneModel) (i : ℕ) :
    (newPlanesFrom o cyc home ms i).filter (fun p => decide (p.owner = o)) =
      newPlanesFrom o cyc home ms i := by
  apply List.filter_eq_self.mpr
  intro p hp
  simp [(newPlanesFrom_mem o cyc home hp).1]

theorem filter_airline_of_ne (l : List AirlineBase) (k : ℕ) :
    (l.filter (fun b => decide (b.airline ≠ k))).filter (fun b => decide (b.airline = k)) = [] := by
  rw [List.filter_filter]
  apply List.filter_eq_nil_iff.mpr
  intro a ha
  simp

theorem filter_owner_of_ne (l : List Airplane) (k : ℕ) :
    (l.filter (fun p => decide (p.owner ≠ k))).filter (fun p => decide (p.owner = k)) = [] := by
  rw [List.filter_filter]
  apply List.filter_eq_nil_iff.mpr
  intro a ha
  simp

/-! ## Claim C3: terminal-state invariants of reset and create -/

/-- C3: after a successful reset or create, the entity's financial profile
rows hold balance 200000, reputation 0 and service quality 50; the entity
has exactly one base — flagged headquarters, at scale 1 — when a home
location was resolved (equivalently, when the journal contains the base
insert) and none otherwise; and it owns between 0 and 5 airplanes, each
with condition 100 and not sold. -/
theorem reset_create_terminal_invariants
    (fault : ℕ → Bool) (sample : List AirplaneModel → ℕ → List AirplaneModel)
    (db : DB) (bot_id : ℕ) (req : CreateRequest)
    (hs : SampleOK sample)
    (hfreshI : ∀ i ∈ db.infos, i.airline ≠ db.next_airline_id)
    (hfreshB : ∀ b ∈ db.bases, b.airline ≠ db.next_airline_id)
    (hfreshP : ∀ p ∈ db.airplanes, p.owner ≠ db.next_airline_id) :
    ((reset_single_bot fault sample db bot_id).2.1.success = true →
      (∀ i ∈ (reset_single_bot fault sample db bot_id).1.infos, i.airline = bot_id →
        i.balance = 200000 ∧ i.reputation = 0 ∧ i.service_quality = 50) ∧
      ((reset_single_bot fault sample db bot_id).1.bases.filter
          (fun b => decide (b.airline = bot_id)) = [] ∧
        Op.insertBase ∉ (reset_single_bot fault sample db bot_id).2.2 ∨
       (∃ b, (reset_single_bot fault sample db bot_id).1.bases.filter
          (fun x => decide (x.airline = bot_id)) = [b] ∧
        b.headquarter = true ∧ b.scale = 1 ∧
        Op.insertBase ∈ (reset_single_bot fault sample db bot_id).2.2)) ∧
      ((reset_single_bot fault sample db bot_id).1.airplanes.filter
          (fun p => decide (p.owner = bot_id))).length ≤ 5 ∧
      (∀ p ∈ (reset_single_bot fault sample db bot_id).1.airplanes, p.owner = bot_id →
        p.airplane_condition = 100 ∧ p.is_sold = false)) ∧
    ((create_bot sample db req).2.success = true →
      (∀ i ∈ (create_bot sample db req).1.infos, i.airline = db.next_airline_id →
        i.balance = 200000 ∧ i.reputation = 0 ∧ i.service_quality = 50) ∧
      (∃ b, (create_bot sample db req).1.bases.filter
          (fun x => decide (x.airline = db.next_airline_id)) = [b] ∧
        b.headquarter = true ∧ b.scale = 1) ∧
      ((create_bot sample db req).1.airplanes.filter
          (fun p => decide (p.owner = db.next_airline_id))).length ≤ 5 ∧
      (∀ p ∈ (create_bot sample db req).1.airplanes, p.owner = db.next_airline_id →
        p.airplane_condition = 100 ∧ p.is_sold = false)) := by
  constructor
  · intro h
    obtain ⟨a, hfind, hty, hfault⟩ := reset_single_success_inv fault sample db bot_id h
    rw [reset_single_bot_ok fault sample db bot_id a hfind hty hfault]
    simp only [processBotOk_infos, processBotOk_bases, processBotOk_airplanes,
      processBotOk_journal]
    refine ⟨?_, ?_, ?_, ?_⟩
    · intro i hi hbot
      obtain ⟨j, hj, rfl⟩ := List.mem_map.mp hi
      by_cases hjb : j.airline = bot_id
      · rw [if_pos hjb]
        exact ⟨rfl, rfl, rfl⟩
      · rw [if_neg hjb] at hbot
        exact absurd hbot hjb
    · rcases hqBaseInsert_shape bot_id (currentCycle db)
          (resetHqAirport db (resetCountryCode
            ((db.infos.find? (fun i => decide (i.airline = bot_id))).bind AirlineInfo.country_code)
            a.name))
          (resetCountryCode
            ((db.infos.find? (fun i => decide (i.airline = bot_id))).bind AirlineInfo.country_code)
            a.name) with hsh | ⟨ap, c, _, _, hap, hsh⟩
      · left
        rw [hsh]
        constructor
        · rw [List.append_nil]
          exact filter_airline_of_ne db.bases bot_id
        · simp
      · right
        refine ⟨⟨ap, bot_id, 1, currentCycle db, true, c⟩, ?_, rfl, rfl, ?_⟩
        · rw [hsh, List.filter_append, filter_airline_of_ne db.bases bot_id]
          simp
        · rw [hsh]
          simp
    · rw [List.filter_append, filter_owner_of_ne db.airplanes bot_id,
        newPlanesFrom_filter_owner, List.nil_append, newPlanesFrom_length]
      by_cases hemp : (cheapModels db).isEmpty
      · simp [hemp]
      · simp only [hemp, Bool.false_eq_true, if_false]
        rw [(hs (cheapModels db) (min 5 (cheapModels db).length)
          (Nat.min_le_right 5 (cheapModels db).length)).1]
        exact Nat.min_le_left 5 (cheapModels db).length
    · intro p hp hpo
      rcases List.mem_append.mp hp with hmem | hmem
      · have := (List.mem_filter.mp hmem).2
        simp only [decide_eq_true_eq] at this
        exact absurd hpo this
      · obtain ⟨_, h2, _, h4, _⟩ := newPlanesFrom_mem _ _ _ hmem
        exact ⟨h2, h4⟩
  · intro h
    obtain ⟨hq, hres⟩ := create_bot_success_inv sample db req h
    rw [create_bot_ok sample db req hq hres]
    simp only [insertPlanes_eq]
    refine ⟨?_, ?_, ?_, ?_⟩
    · intro i hi hio
      rcases List.mem_append.mp hi with hmem | hmem
      · exact absurd hio (hfreshI i hmem)
      · rw [List.mem_singleton.mp hmem]
        exact ⟨rfl, rfl, rfl⟩
    · refine ⟨⟨hq.1, db.next_airline_id, 1, currentCycle db, true, hq.2⟩, ?_, rfl, rfl⟩
      rw [List.filter_append]
      have h1 : db.bases.filter (fun x => decide (x.airline = db.next_airline_id)) = [] := by
        apply List.filter_eq_nil_iff.mpr
        intro b hb
        simp [hfreshB b hb]
      rw [h1]
      simp
    · rw [List.filter_append]
      have h1 : db.airplanes.filter (fun p => decide (p.owner = db.next_airline_id)) = [] := by
        apply List.filter_eq_nil_iff.mpr
        intro p hp
        simp [hfreshP p hp]
      rw [h1, newPlanesFrom_filter_owner, List.nil_append, newPlanesFrom_length]
      by_cases hemp : (cheapModels db).isEmpty
      · simp [hemp]
      · simp only [hemp, Bool.false_eq_true, if_false]
        rw [(hs (cheapModels db) (min 5 (cheapModels db).length)
          (Nat.min_le_right 5 (cheapModels db).length)).1]
        exact Nat.min_le_left 5 (cheapModels db).length
    · intro p hp hpo
      rcases List.mem_append.mp hp with hmem | hmem
      · exact absurd hpo (hfreshP p hmem)
      · obtain ⟨_, h2, _, h4, _⟩ := newPlanesFrom_mem _ _ _ hmem
        exact ⟨h2, h4⟩

/-- C3 witness: on a concrete store, the reset of bot 1 and the creation of
a fresh bot both succeed and exhibit the terminal invariants. -/
theorem reset_create_terminal_invariants_witness :
    (reset_single_bot noFault takeSample dbSingle 1).2.1.success = true ∧
    (create_bot takeSample dbSingle ⟨none, none, none⟩).2.success = true ∧
    (∀ i ∈ (reset_single_bot noFault takeSample dbSingle 1).1.infos, i.airline = 1 →
      i.balance = 200000 ∧ i.reputation = 0 ∧ i.service_quality = 50) ∧
    (∃ b, (create_bot takeSample dbSingle ⟨none, none, none⟩).1.bases.filter
        (fun x => decide (x.airline = dbSingle.next_airline_id)) = [b] ∧
      b.headquarter = true ∧ b.scale = 1) :=
  have hmain := reset_create_terminal_invariants noFault takeSample dbSingle 1 ⟨none, none, none⟩
    takeSample_ok (by decide) (by decide) (by decide)
  ⟨by decide, by decide, (hmain.1 (by decide)).1, (hmain.2 (by decide)).2.1⟩

/-! ## Claim C6: fleet provisioning -/

instance : IsTotal AirplaneModel (fun a b => a.price ≤ b.price) :=
  ⟨fun a b => le_total a.price b.price⟩

instance : IsTrans AirplaneModel (fun a b => a.price ≤ b.price) :=
  ⟨fun _ _ _ h1 h2 => le_trans h1 h2⟩

/-- C6: the candidate pool is the models strictly below 40,000,000 ordered
by price ascending; a successful reset inserts exactly `min 5 pool_size`
airplanes for the bot — zero (still successfully) when the pool is empty —
drawn without replacement from the pool (their (model, value) pairs equal
those of a sub-permutation of the pool, so each value is its model's
price); and every inserted airplane has condition 100, depreciation rate 0,
sold flag false, and acquisition cycle equal to the current cycle. -/
theorem fleet_provisioning_contract (fault : ℕ → Bool)
    (sample : List AirplaneModel → ℕ → List AirplaneModel) (db : DB) (bot_id : ℕ)
    (hs : SampleOK sample) :
    (cheapModels db).Perm (db.models.filter (fun m => decide (m.price < 40000000))) ∧
    List.Sorted (fun a b : AirplaneModel => a.price ≤ b.price) (cheapModels db) ∧
    ((reset_single_bot fault sample db bot_id).2.1.success = true →
      ((reset_single_bot fault sample db bot_id).1.airplanes.filter
          (fun p => decide (p.owner = bot_id))).length = min 5 (cheapModels db).length ∧
      (cheapModels db = [] →
        (reset_single_bot fault sample db bot_id).1.airplanes.filter
          (fun p => decide (p.owner = bot_id)) = []) ∧
      (∃ sel : List AirplaneModel, List.Subperm sel (cheapModels db) ∧
        ((reset_single_bot fault sample db bot_id).1.airplanes.filter
            (fun p => decide (p.owner = bot_id))).map (fun p => (p.model, p.value)) =
          sel.map (fun m => (m.id, m.price))) ∧
      (∀ p ∈ (reset_single_bot fault sample db bot_id).1.airplanes, p.owner = bot_id →
        p.airplane_condition = 100 ∧ p.depreciation_rate = 0 ∧ p.is_sold = false ∧
        p.constructed_cycle = currentCycle db ∧ p.purchased_cycle = currentCycle db)) := by
  refine ⟨List.perm_insertionSort _ _, List.sorted_insertionSort _ _, ?_⟩
  intro h
  obtain ⟨a, hfind, hty, hfault⟩ := reset_single_success_inv fault sample db bot_id h
  rw [reset_single_bot_ok fault sample db bot_id a hfind hty hfault]
  simp only [processBotOk_airplanes]
  have hfilter :
      ((db.airplanes.filter (fun p => decide (p.owner ≠ bot_id)) ++
        newPlanesFrom bot_id (currentCycle db)
          (resetHqAirport db (resetCountryCode
            ((db.infos.find? (fun i => decide (i.airline = bot_id))).bind AirlineInfo.country_code)
            a.name))
          (if (cheapModels db).isEmpty then []
           else sample (cheapModels db) (min 5 (cheapModels db).length))
          db.next_airplane_id).filter (fun p => decide (p.owner = bot_id))) =
      newPlanesFrom bot_id (currentCycle db)
        (resetHqAirport db (resetCountryCode
          ((db.infos.find? (fun i => decide (i.airline = bot_id))).bind AirlineInfo.country_code)
          a.name))
        (if (cheapModels db).isEmpty then []
         else sample (cheapModels db) (min 5 (cheapModels db).length))
        db.next_airplane_id := by
    rw [List.filter_append, filter_owner_of_ne db.airplanes bot_id,
      newPlanesFrom_filter_owner, List.nil_append]
  refine ⟨?_, ?_, ?_, ?_⟩
  · rw [hfilter, newPlanesFrom_length]
    by_cases hemp : (cheapModels db).isEmpty
    · rw [List.isEmpty_iff] at hemp
      simp [hemp]
    · simp only [hemp, Bool.false_eq_true, if_false]
      exact (hs (cheapModels db) (min 5 (cheapModels db).length)
        (Nat.min_le_right 5 (cheapModels db).length)).1
  · intro hpool
    rw [hfilter]
    have hemp : (cheapModels db).isEmpty = true := by rw [hpool]; rfl
    rw [hemp]
    rfl
  · refine ⟨if (cheapModels db).isEmpty then []
      else sample (cheapModels db) (min 5 (cheapModels db).length), ?_, ?_⟩
    · by_cases hemp : (cheapModels db).isEmpty
      · simp [hemp]
      · simp only [hemp, Bool.false_eq_true, if_false]
        exact (hs (cheapModels db) (min 5 (cheapModels db).length)
          (Nat.min_le_right 5 (cheapModels db).length)).2
    · rw [hfilter, newPlanesFrom_map]
  · intro p hp hpo
    rcases List.mem_append.mp hp with hmem | hmem
    · have := (List.mem_filter.mp hmem).2
      simp only [decide_eq_true_eq] at this
      exact absurd hpo this
    · obtain ⟨_, h2, h3, h4, h5, h6, _⟩ := newPlanesFrom_mem _ _ _ hmem
      exact ⟨h2, h3, h4, h5, h6⟩

/-- A store whose only model is too expensive for the candidate pool. -/
def dbRich : DB :=
  { airlines := [⟨1, "BotOne", 2⟩],
    infos := [⟨1, 999, 10, 20, 30, some "US", true⟩],
    links := [], link_assignments := [], link_consumptions := [],
    airplanes := [], airplane_configurations := [], bases := [], appeals := [],
    airports := [⟨5, "JFK", "US", 9, 100⟩],
    models := [⟨3, "jumbo", 50000000⟩], cycles := [4],
    next_airline_id := 2, next_airplane_id := 10 }

/-- C6 witness: a one-model pool yields exactly `min 5 1 = 1` airplane; an
empty pool (every model at or above the ceiling) yields zero airplanes with
a successful reset. -/
theorem fleet_provisioning_contract_witness :
    (reset_single_bot noFault takeSample dbSingle 1).2.1.success = true ∧
    ((reset_single_bot noFault takeSample dbSingle 1).1.airplanes.filter
        (fun p => decide (p.owner = 1))).length = min 5 (cheapModels dbSingle).length ∧
    (reset_single_bot noFault takeSample dbRich 1).2.1.success = true ∧
    cheapModels dbRich = [] ∧
    (reset_single_bot noFault takeSample dbRich 1).1.airplanes.filter
        (fun p => decide (p.owner = 1)) = [] :=
  ⟨by decide,
   ((fleet_provisioning_contract noFault takeSample dbSingle 1 takeSample_ok).2.2
      (by decide)).1,
   by decide,
   by decide,
   ((fleet_provisioning_contract noFault takeSample dbRich 1 takeSample_ok).2.2
      (by decide)).2.1 (by decide)⟩

/-! ## Claim C7: delete order and referential integrity -/

/-- C7: a successful reset executes the deletions in the fixed dependency
order — link assignments, link consumptions, links, airplane
configurations, airplanes, bases, appeal — before the financial-profile
update, with only inserts afterwards; and afterwards no link-assignment,
link-consumption, or airplane-configuration row references a deleted link
or airplane id (an id present before the reset and absent after it). -/
theorem reset_delete_order_and_integrity (fault : ℕ → Bool)
    (sample : List AirplaneModel → ℕ → List AirplaneModel) (db : DB) (bot_id : ℕ)
    (h : (reset_single_bot fault sample db bot_id).2.1.success = true) :
    (∃ tail, (reset_single_bot fault sample db bot_id).2.2 =
      [Op.delLinkAssignments, Op.delLinkConsumptions, Op.delLinks,
       Op.delAirplaneConfigurations, Op.delAirplanes, Op.delBases, Op.delAppeal,
       Op.updateFinancialProfile] ++ tail ∧
      ∀ o ∈ tail, o = Op.insertBase ∨ o = Op.insertAirplane) ∧
    (∀ la ∈ (reset_single_bot fault sample db bot_id).1.link_assignments,
      ∀ lid, lid ∈ db.links.map Link.id →
        lid ∉ (reset_single_bot fault sample db bot_id).1.links.map Link.id →
        la.link ≠ lid) ∧
    (∀ lc ∈ (reset_single_bot fault sample db bot_id).1.link_consumptions,
      ∀ lid, lid ∈ db.links.map Link.id →
        lid ∉ (reset_single_bot fault sample db bot_id).1.links.map Link.id →
        lc.link ≠ lid) ∧
    (∀ cfg ∈ (reset_single_bot fault sample db bot_id).1.airplane_configurations,
      ∀ pid, pid ∈ db.airplanes.map Airplane.id →
        pid ∉ (reset_single_bot fault sample db bot_id).1.airplanes.map Airplane.id →
        cfg.airplane ≠ pid) := by
  obtain ⟨a, hfind, hty, hfault⟩ := reset_single_success_inv fault sample db bot_id h
  rw [reset_single_bot_ok fault sample db bot_id a hfind hty hfault]
  simp only [processBotOk_journal, processBotOk_link_assignments,
    processBotOk_link_consumptions, processBotOk_links, processBotOk_configurations,
    processBotOk_airplanes]
  refine ⟨⟨_, List.append_assoc _ _ _, ?_⟩, ?_, ?_, ?_⟩
  · intro o ho
    rcases List.mem_append.mp ho with h1 | h1
    · left
      revert h1
      split
      · intro h1; exact List.mem_singleton.mp h1
      · intro h1; exact absurd h1 (List.not_mem_nil o)
    · right
      exact List.eq_of_mem_replicate h1
  · intro la hla lid hlid hnot heq
    have hmem : decide (la.link ∉
        (db.links.filter (fun l => decide (l.airline = bot_id))).map Link.id) = true :=
      (List.mem_filter.mp hla).2
    rw [decide_eq_true_eq] at hmem
    obtain ⟨l, hl, hlid'⟩ := List.mem_map.mp hlid
    by_cases hair : l.airline = bot_id
    · exact hmem (heq ▸ hlid' ▸ List.mem_map_of_mem Link.id
        (List.mem_filter.mpr ⟨hl, by simp [hair]⟩))
    · exact hnot (hlid' ▸ List.mem_map_of_mem Link.id
        (List.mem_filter.mpr ⟨hl, by simp [hair]⟩))
  · intro lc hlc lid hlid hnot heq
    have hmem : decide (lc.link ∉
        (db.links.filter (fun l => decide (l.airline = bot_id))).map Link.id) = true :=
      (List.mem_filter.mp hlc).2
    rw [decide_eq_true_eq] at hmem
    obtain ⟨l, hl, hlid'⟩ := List.mem_map.mp hlid
    by_cases hair : l.airline = bot_id
    · exact hmem (heq ▸ hlid' ▸ List.mem_map_of_mem Link.id
        (List.mem_filter.mpr ⟨hl, by simp [hair]⟩))
    · exact hnot (hlid' ▸ List.mem_map_of_mem Link.id
        (List.mem_filter.mpr ⟨hl, by simp [hair]⟩))
  · intro cfg hcfg pid hpid hnot heq
    have hmem : decide (cfg.airplane ∉
        (db.airplanes.filter (fun p => decide (p.owner = bot_id))).map Airplane.id) = true :=
      (List.mem_filter.mp hcfg).2
    rw [decide_eq_true_eq] at hmem
    obtain ⟨p, hp, hpid'⟩ := List.mem_map.mp hpid
    by_cases hair : p.owner = bot_id
    · exact hmem (heq ▸ hpid' ▸ List.mem_map_of_mem Airplane.id
        (List.mem_filter.mpr ⟨hp, by simp [hair]⟩))
    · refine hnot ?_
      rw [List.map_append]
      exact List.mem_append_left _ (hpid' ▸ List.mem_map_of_mem Airplane.id
        (List.mem_filter.mpr ⟨hp, by simp [hair]⟩))

/-- C7 witness: a concrete successful reset on a store whose rows exercise
all the deletions, with the journal and integrity facts instantiated. -/
theorem reset_delete_order_and_integrity_witness :
    (reset_single_bot noFault takeSample dbSingle 1).2.1.success = true ∧
    (∃ tail, (reset_single_bot noFault takeSample dbSingle 1).2.2 =
      [Op.delLinkAssignments, Op.delLinkConsumptions, Op.delLinks,
       Op.delAirplaneConfigurations, Op.delAirplanes, Op.delBases, Op.delAppeal,
       Op.updateFinancialProfile] ++ tail ∧
      ∀ o ∈ tail, o = Op.insertBase ∨ o = Op.insertAirplane) ∧
    (∀ la ∈ (reset_single_bot noFault takeSample dbSingle 1).1.link_assignments,
      ∀ lid, lid ∈ dbSingle.links.map Link.id →
        lid ∉ (reset_single_bot noFault takeSample dbSingle 1).1.links.map Link.id →
        la.link ≠ lid) :=
  have hmain := reset_delete_order_and_integrity noFault takeSample dbSingle 1 (by decide)
  ⟨by decide, hmain.1, hmain.2.1⟩

/-! ## Claim C8: home-location resolution and its reporting -/

/-- The market code a reset resolves for a bot: the stored (truthy) code
from the joined financial profile, with case-insensitive name inference as
fallback. -/
def resetResolvedCode (db : DB) (bot_id : ℕ) (name : String) : Option String :=
  resetCountryCode
    ((db.infos.find? (fun i => decide (i.airline = bot_id))).bind AirlineInfo.country_code)
    name

/-- A store whose one bot has no stored country code, a name matching no
entry of the inference table, and no airports at all. -/
def dbNoLoc : DB :=
  { airlines := [⟨1, "Nairline", 2⟩],
    infos := [⟨1, 999, 10, 20, 30, none, true⟩],
    links := [], link_assignments := [], link_consumptions := [],
    airplanes := [], airplane_configurations := [], bases := [], appeals := [],
    airports := [], models := [], cycles := [],
    next_airline_id := 2, next_airplane_id := 1 }

/-- C8 counterexample (to the reporting clause): when both the stored code
and the name inference fail, the reset completes successfully without
creating any base — but the response does NOT report that no headquarters
was created: its success message still contains the fixed text
"Created new HQ.". -/
theorem reset_hq_report_cex :
    (reset_single_bot noFault takeSample dbNoLoc 1).2.1.success = true ∧
    (reset_single_bot noFault takeSample dbNoLoc 1).1.bases = [] ∧
    (reset_single_bot noFault takeSample dbNoLoc 1).2.1.message =
      "Reset bot airline Nairline. Deleted 0 routes, 0 aircraft, 0 bases. Created new HQ. Added 0 new aircraft. Balance reset to $200,000, reputation to 0." := by
  refine ⟨by decide, by decide, by decide⟩

/-- C8 (amended): when a market code is available the chosen Location is a
candidate of that code that no other candidate beats on (size rank,
population) descending; when no code is stored the fallback code comes from
the case-insensitive name table (both paths summarised by
`resetResolvedCode`, and the bot's post-reset bases are exactly the HQ
rows that code induces); when both fail the reset still completes
successfully with no base — but the response carries no headquarters
indicator: its success message is the same fixed template (containing
"Created new HQ.") in every case. -/
theorem home_location_resolution (fault : ℕ → Bool)
    (sample : List AirplaneModel → ℕ → List AirplaneModel) (db : DB) (bot_id : ℕ)
    (a : Airline)
    (hfind : db.airlines.find? (fun x => decide (x.id = bot_id)) = some a)
    (hty : a.airline_type = 2) (hfault : fault bot_id = false) :
    (∀ c i, selectHqAirport db c = some i →
      ∃ ap ∈ db.airports, ap.id = i ∧ ap.country_code = c ∧
        ∀ b ∈ db.airports, b.country_code = c → locLE b ap) ∧
    (reset_single_bot fault sample db bot_id).2.1.success = true ∧
    ((reset_single_bot fault sample db bot_id).1.bases.filter
        (fun b => decide (b.airline = bot_id))) =
      hqBaseInsert bot_id (currentCycle db)
        (resetHqAirport db (resetResolvedCode db bot_id a.name))
        (resetResolvedCode db bot_id a.name) ∧
    (resetResolvedCode db bot_id a.name = none →
      (reset_single_bot fault sample db bot_id).1.bases.filter
        (fun b => decide (b.airline = bot_id)) = []) ∧
    (∃ w x y z, (reset_single_bot fault sample db bot_id).2.1.message =
      resetSingleMessage a.name w x y z) := by
  refine ⟨fun c i => selectHqAirport_spec db c i, ?_, ?_, ?_, ?_⟩
  · rw [reset_single_bot_ok fault sample db bot_id a hfind hty hfault]
  · rw [reset_single_bot_ok fault sample db bot_id a hfind hty hfault]
    simp only [processBotOk_bases]
    rw [List.filter_append, filter_airline_of_ne db.bases bot_id, List.nil_append]
    unfold resetResolvedCode
    rcases hqBaseInsert_shape bot_id (currentCycle db)
        (resetHqAirport db (resetCountryCode
          ((db.infos.find? (fun i => decide (i.airline = bot_id))).bind AirlineInfo.country_code)
          a.name))
        (resetCountryCode
          ((db.infos.find? (fun i => decide (i.airline = bot_id))).bind AirlineInfo.country_code)
          a.name) with hsh | ⟨ap, c, _, _, hap, hsh⟩
    · rw [hsh]; rfl
    · rw [hsh]; simp
  · intro hc
    rw [reset_single_bot_ok fault sample db bot_id a hfind hty hfault]
    simp only [processBotOk_bases]
    rw [List.filter_append, filter_airline_of_ne db.bases bot_id, List.nil_append]
    unfold resetResolvedCode at hc
    rw [hc]
    rfl
  · rw [reset_single_bot_ok fault sample db bot_id a hfind hty hfault]
    exact ⟨_, _, _, _, rfl⟩

/-- C8 witness for the amended statement, at the store where both
resolution signals fail. -/
theorem home_location_resolution_witness :
    (reset_single_bot noFault takeSample dbNoLoc 1).2.1.success = true ∧
    (reset_single_bot noFault takeSample dbNoLoc 1).1.bases.filter
        (fun b => decide (b.airline = 1)) = [] :=
  have hmain := home_location_resolution noFault takeSample dbNoLoc 1 ⟨1, "Nairline", 2⟩
    (by decide) rfl rfl
  ⟨hmain.2.1, hmain.2.2.2.1 (by decide)⟩

/-- C10 witness: even for a name ("Qantas") present in the inference table,
the created entity's market code is the default "US". -/
theorem create_bot_defaults_witness :
    (create_bot takeSample dbCreate ⟨some "Qantas", none, none⟩).2.success = true ∧
    create_bot takeSample dbCreate ⟨some "Qantas", none, none⟩ =
      create_bot takeSample dbCreate ⟨some "Qantas", some "US", none⟩ ∧
    ((∃ a ∈ (create_bot takeSample dbCreate ⟨some "Qantas", none, none⟩).1.airlines,
        a.id = dbCreate.next_airline_id ∧ a.name = (some "Qantas").getD "New Bot Airline" ∧
        a.airline_type = 2) ∧
     (∃ i ∈ (create_bot takeSample dbCreate ⟨some "Qantas", none, none⟩).1.infos,
        i.airline = dbCreate.next_airline_id ∧ i.country_code = some "US")) :=
  ⟨by decide,
   (create_bot_defaults takeSample dbCreate (some "Qantas")).1,
   (create_bot_defaults takeSample dbCreate (some "Qantas")).2 (by decide)⟩

end FlightForge
